import Mathlib

/-!
Verification of the Lead Assessment POC backend (backend/main.py) against its
natural-language specification.

Embedding conventions:
* Python floats are modelled over exact rationals (ℚ).  Decimal literals such
  as 0.4 denote the exact rational 4/10; the formulas of the spec are stated
  over real-number semantics, not IEEE-754 bit patterns.
* A pandas column value that may be NaN is modelled as Option ℚ (Option.none
  standing for NaN): arithmetic propagates none and every comparison against
  none is false, exactly as NaN behaves in pandas filters.  Fields that the
  loaded dataset and the LeadData pydantic model always populate
  (employee_count, revenue, industry, ...) are plain ℚ / String.
* Code that can raise is modelled with Except String (Except.error standing
  for a raised exception).
* Request-scoped randomness (random.uniform) is modelled by explicit
  parameters: one parameter per call site in the Python source, so a scalar
  drawn once per request is a single parameter shared by every record.
-/

namespace LeadPOC

/-! ## Python float values

A Python/numpy float is either a finite value, NaN, or one of the two
infinities.  The predicates isnan/isinf mirror np.isnan/np.isinf. -/

inductive PFloat where
  | fin (q : ℚ)
  | nan
  | inf
  | ninf
deriving DecidableEq

def PFloat.isnan : PFloat → Bool
  | .nan => true
  | _ => false

def PFloat.isinf : PFloat → Bool
  | .inf => true
  | .ninf => true
  | _ => false

/-! ## JSON-bound Python values

PyVal models the values that reach the serialization helpers
convert_numpy_types and clean_data_for_json: numpy scalars (np.integer,
np.floating), native Python scalars, None, strings, and (recursively) lists
and dicts.  Lists and dicts are given by the mutual types PyList/PyDict so
that structural recursion and induction work.  (np.ndarray never occurs in an
endpoint result — records produced by DataFrame.to_dict with the records
orient hold scalars only — and is not modelled.) -/

mutual
inductive PyVal where
  | npInt (n : ℤ)
  | npFloat (f : PFloat)
  | pyInt (n : ℤ)
  | pyFloat (f : PFloat)
  | pyBool (b : Bool)
  | pyStr (s : String)
  | pyNone
  | list (xs : PyList)
  | dict (kvs : PyDict)
inductive PyList where
  | nil
  | cons (v : PyVal) (rest : PyList)
inductive PyDict where
  | nil
  | cons (k : String) (v : PyVal) (rest : PyDict)
end

/-- pd.isna on a scalar: true exactly for None and float NaN (numpy or
native); false for numbers, bools and strings. -/
def pdIsna : PyVal → Bool
  | .pyNone => true
  | .npFloat f => f.isnan
  | .pyFloat f => f.isnan
  | _ => false

mutual
/-- Embedding of convert_numpy_types (backend/main.py lines 11-27):
numpy ints become Python ints; numpy floats that are NaN or infinite become
0.0, other numpy floats become the same Python float; dicts and lists are
converted elementwise; everything else is returned unchanged. -/
def convert_numpy_types : PyVal → PyVal
  | .npInt n => .pyInt n
  | .npFloat f => if f.isnan || f.isinf then .pyFloat (.fin 0) else .pyFloat f
  | .dict kvs => .dict (convert_numpy_types_dict kvs)
  | .list xs => .list (convert_numpy_types_list xs)
  | v => v
def convert_numpy_types_list : PyList → PyList
  | .nil => .nil
  | .cons v rest => .cons (convert_numpy_types v) (convert_numpy_types_list rest)
def convert_numpy_types_dict : PyDict → PyDict
  | .nil => .nil
  | .cons k v rest => .cons k (convert_numpy_types v) (convert_numpy_types_dict rest)
end

mutual
/-- Embedding of clean_data_for_json (backend/main.py lines 165-182), with
the if/elif branch order of the source: dicts and lists recurse; a numpy
scalar returns None when NaN, else its item() value (note that np.isinf is
never checked); a value with pd.isna true returns None; a native int/float
returns None when NaN, else itself; everything else is returned unchanged. -/
def clean_data_for_json : PyVal → PyVal
  | .dict kvs => .dict (clean_data_for_json_dict kvs)
  | .list xs => .list (clean_data_for_json_list xs)
  | .npInt n => .pyInt n
  | .npFloat f => if f.isnan then .pyNone else .pyFloat f
  | .pyNone => .pyNone
  | .pyFloat f => if f.isnan then .pyNone else .pyFloat f
  | v => v
def clean_data_for_json_list : PyList → PyList
  | .nil => .nil
  | .cons v rest => .cons (clean_data_for_json v) (clean_data_for_json_list rest)
def clean_data_for_json_dict : PyDict → PyDict
  | .nil => .nil
  | .cons k v rest => .cons k (clean_data_for_json v) (clean_data_for_json_dict rest)
end

mutual
/-- A serialized value contains a NaN token somewhere. -/
def hasNaN : PyVal → Bool
  | .npFloat f => f.isnan
  | .pyFloat f => f.isnan
  | .list xs => hasNaNList xs
  | .dict kvs => hasNaNDict kvs
  | _ => false
def hasNaNList : PyList → Bool
  | .nil => false
  | .cons v rest => hasNaN v || hasNaNList rest
def hasNaNDict : PyDict → Bool
  | .nil => false
  | .cons _ v rest => hasNaN v || hasNaNDict rest
end

mutual
/-- A serialized value contains an Infinity token somewhere. -/
def hasInf : PyVal → Bool
  | .npFloat f => f.isinf
  | .pyFloat f => f.isinf
  | .list xs => hasInfList xs
  | .dict kvs => hasInfDict kvs
  | _ => false
def hasInfList : PyList → Bool
  | .nil => false
  | .cons v rest => hasInf v || hasInfList rest
def hasInfDict : PyDict → Bool
  | .nil => false
  | .cons _ v rest => hasInf v || hasInfDict rest
end

mutual
/-- A value contains a numpy float that is NaN or infinite. -/
def hasNpNonFinite : PyVal → Bool
  | .npFloat f => f.isnan || f.isinf
  | .list xs => hasNpNonFiniteList xs
  | .dict kvs => hasNpNonFiniteDict kvs
  | _ => false
def hasNpNonFiniteList : PyList → Bool
  | .nil => false
  | .cons v rest => hasNpNonFinite v || hasNpNonFiniteList rest
def hasNpNonFiniteDict : PyDict → Bool
  | .nil => false
  | .cons _ v rest => hasNpNonFinite v || hasNpNonFiniteDict rest
end

/-! ## Lead records

Fields of a loaded lead row that the three filter/derive/sort endpoints read.
nr_fit_score, nr_tier, contract_value and competitor_tool may be missing
(NaN in the CSV; they are the Optional fields of the LeadData pydantic model)
and are modelled as Option; the remaining fields are always populated by the
data generator. -/

structure Lead where
  company_name : String
  industry : String
  employee_count : ℚ
  revenue : ℚ
  nr_fit_score : Option ℚ
  nr_tier : Option String
  contract_value : Option ℚ
  competitor_tool : Option String
deriving DecidableEq

/-! ## pandas comparison and filter combinators

A comparison of a possibly-NaN column value against a bound is false when the
value is NaN, as in pandas. -/

def oGe (x : Option ℚ) (m : ℚ) : Bool :=
  match x with
  | none => false
  | some a => decide (m ≤ a)

def oLe (x : Option ℚ) (M : ℚ) : Bool :=
  match x with
  | none => false
  | some a => decide (a ≤ M)

def oGt (x : Option ℚ) (m : ℚ) : Bool :=
  match x with
  | none => false
  | some a => decide (m < a)

/-- One optional numeric filter stage: the source pattern
"if param is not None: filtered = filtered[pred]". -/
def optStage (param : Option β) (pred : β → α → Bool) (l : List α) : List α :=
  match param with
  | none => l
  | some b => l.filter (pred b)

/-- One optional string-equality filter stage: the source pattern
"if param: filtered = filtered[filtered[col] == param]".  Python truthiness
means the empty string also skips the filter. -/
def strStage (param : Option String) (field : α → String) (l : List α) : List α :=
  match param with
  | none => l
  | some s => if s = "" then l else l.filter (fun r => decide (field r = s))

/-! ## Descending sort (pandas sort_values with ascending False)

NaN keys sort to the end (the pandas default na_position is last), modelled
by oLT treating none as below every finite key.  The embedding uses insertion
sort; note that pandas sort_values uses numpy quicksort by default, whose
ordering of equal keys is an implementation detail that this embedding does
not reproduce — no theorem below relies on the tie order of the embedding. -/

def oLT : Option ℚ → Option ℚ → Bool
  | _, none => false
  | none, some _ => true
  | some a, some b => decide (a < b)

def insertDesc (key : α → Option ℚ) (x : α) : List α → List α
  | [] => [x]
  | y :: ys => if oLT (key y) (key x) then x :: y :: ys else y :: insertDesc key x ys

def sortDesc (key : α → Option ℚ) : List α → List α
  | [] => []
  | x :: xs => insertDesc key x (sortDesc key xs)

/-! ## GET /api/leads/sourcing (backend/main.py lines 630-697) -/

/-- The sourcing score column (lines 651-655):
nr_fit_score * 0.4 + (employee_count / 1000) * 0.3 + (revenue / 1000000) * 0.3.
NaN fit scores propagate to a NaN sourcing score. -/
def sourcing_score (l : Lead) : Option ℚ :=
  l.nr_fit_score.map
    (fun f => f * 0.4 + (l.employee_count / 1000) * 0.3 + (l.revenue / 1000000) * 0.3)

/-- Query parameters of GET /api/leads/sourcing. -/
structure SourcingParams where
  limit : ℕ := 100
  industry : Option String := none
  min_employee_count : Option ℚ := none
  max_employee_count : Option ℚ := none
  min_sourcing_score : Option ℚ := none
  max_sourcing_score : Option ℚ := none
  days_since_created_max : Option ℚ := none
deriving DecidableEq

/-- A lead row with the derived sourcing columns.  days_since_created depends
on the wall clock (pd.Timestamp.now() minus a generated creation date) and is
supplied as an input per row index. -/
structure SourcingRow where
  lead : Lead
  days_since_created : ℚ
  sourcing_score : Option ℚ
deriving DecidableEq

/-- Derive the sourcing columns for each row (lines 648-655); days i is the
days_since_created value of row i. -/
def mkSourcingRows (days : ℕ → ℚ) : ℕ → List Lead → List SourcingRow
  | _, [] => []
  | i, l :: ls =>
      { lead := l, days_since_created := days i, sourcing_score := sourcing_score l }
        :: mkSourcingRows days (i + 1) ls

/-- The filter chain of GET /api/leads/sourcing (lines 657-682), in source
order, including the default high-potential floor applied only when neither
sourcing-score bound was supplied (lines 680-682). -/
def get_lead_sourcing_filtered (leads : List Lead) (days : ℕ → ℚ) (p : SourcingParams) :
    List SourcingRow :=
  let sourcing_data := mkSourcingRows days 0 leads
  let f1 := strStage p.industry (fun r => r.lead.industry) sourcing_data
  let f2 := optStage p.min_employee_count (fun m r => decide (m ≤ r.lead.employee_count)) f1
  let f3 := optStage p.max_employee_count (fun M r => decide (r.lead.employee_count ≤ M)) f2
  let f4 := optStage p.min_sourcing_score (fun m r => oGe r.sourcing_score m) f3
  let f5 := optStage p.max_sourcing_score (fun M r => oLe r.sourcing_score M) f4
  let f6 := optStage p.days_since_created_max (fun d r => decide (r.days_since_created ≤ d)) f5
  match p.min_sourcing_score, p.max_sourcing_score with
  | none, none => f6.filter (fun r => oGt r.sourcing_score 0.6)
  | _, _ => f6

/-- A serialized sourcing record after the per-column fillna cleaning
(lines 687-694). -/
structure CleanSourcingRecord where
  company_name : String
  industry : String
  employee_count : ℚ
  revenue : ℚ
  nr_fit_score : ℚ
  nr_tier : String
  contract_value : ℚ
  competitor_tool : Option String
  sourcing_score : ℚ
  days_since_created : ℚ
deriving DecidableEq

/-- The cleaning step of the sourcing endpoint: fillna(0) for numeric
columns, fillna("Standard") for nr_tier, competitor_tool left as None when
missing. -/
def cleanSourcingRow (r : SourcingRow) : CleanSourcingRecord :=
  { company_name := r.lead.company_name
    industry := r.lead.industry
    employee_count := r.lead.employee_count
    revenue := r.lead.revenue
    nr_fit_score := r.lead.nr_fit_score.getD 0
    nr_tier := r.lead.nr_tier.getD "Standard"
    contract_value := r.lead.contract_value.getD 0
    competitor_tool := r.lead.competitor_tool
    sourcing_score := r.sourcing_score.getD 0
    days_since_created := r.days_since_created }

/-- Embedding of the body of get_lead_sourcing_data given a loaded dataset:
derive, filter, sort by sourcing_score descending, truncate to limit, clean. -/
def get_lead_sourcing_data (leads : List Lead) (days : ℕ → ℚ) (p : SourcingParams) :
    List CleanSourcingRecord :=
  (((sortDesc (fun r => r.sourcing_score) (get_lead_sourcing_filtered leads days p)).take
      p.limit).map cleanSourcingRow)

/-- The full endpoint: a missing dataset raises the 404 "No leads data
available" (modelled as Except.error). -/
def get_lead_sourcing_response (leads_data : Option (List Lead)) (days : ℕ → ℚ)
    (p : SourcingParams) : Except String (List CleanSourcingRecord) :=
  match leads_data with
  | none => .error "No leads data available"
  | some leads => .ok (get_lead_sourcing_data leads days p)

/-! ## GET /api/leads/scoring (backend/main.py lines 699-777)

The three random terms are scalars drawn once per request
(random.uniform(0, 0.3), random.uniform(0, 1) twice, lines 720-722) and
broadcast over the whole column, so they appear here as the per-request
parameters uConv, uEng, uUrg. -/

structure ScoringParams where
  limit : ℕ := 100
  industry : Option String := none
  min_conversion_probability : Option ℚ := none
  max_conversion_probability : Option ℚ := none
  min_engagement_score : Option ℚ := none
  max_engagement_score : Option ℚ := none
  min_urgency_score : Option ℚ := none
  max_urgency_score : Option ℚ := none
  min_composite_score : Option ℚ := none
  max_composite_score : Option ℚ := none
deriving DecidableEq

structure ScoringRow where
  lead : Lead
  conversion_probability : Option ℚ
  engagement_score : ℚ
  urgency_score : ℚ
  composite_score : Option ℚ
deriving DecidableEq

/-- Derived scoring columns (lines 719-729): conversion_probability =
nr_fit_score * 0.7 + uConv (NaN-propagating), engagement_score = uEng,
urgency_score = uUrg, composite_score = conversion_probability * 0.5 +
engagement_score * 0.3 + urgency_score * 0.2. -/
def mkScoringRow (uConv uEng uUrg : ℚ) (l : Lead) : ScoringRow :=
  let conv := l.nr_fit_score.map (fun f => f * 0.7 + uConv)
  { lead := l
    conversion_probability := conv
    engagement_score := uEng
    urgency_score := uUrg
    composite_score := conv.map (fun c => c * 0.5 + uEng * 0.3 + uUrg * 0.2) }

def mkScoringRows (uConv uEng uUrg : ℚ) (leads : List Lead) : List ScoringRow :=
  leads.map (mkScoringRow uConv uEng uUrg)

/-- The filter chain of GET /api/leads/scoring (lines 731-760), in source
order; there is no default floor for this endpoint. -/
def get_lead_scoring_filtered (leads : List Lead) (uConv uEng uUrg : ℚ)
    (p : ScoringParams) : List ScoringRow :=
  let scoring_data := mkScoringRows uConv uEng uUrg leads
  let f1 := strStage p.industry (fun r => r.lead.industry) scoring_data
  let f2 := optStage p.min_conversion_probability
    (fun m r => oGe r.conversion_probability m) f1
  let f3 := optStage p.max_conversion_probability
    (fun M r => oLe r.conversion_probability M) f2
  let f4 := optStage p.min_engagement_score (fun m r => decide (m ≤ r.engagement_score)) f3
  let f5 := optStage p.max_engagement_score (fun M r => decide (r.engagement_score ≤ M)) f4
  let f6 := optStage p.min_urgency_score (fun m r => decide (m ≤ r.urgency_score)) f5
  let f7 := optStage p.max_urgency_score (fun M r => decide (r.urgency_score ≤ M)) f6
  let f8 := optStage p.min_composite_score (fun m r => oGe r.composite_score m) f7
  optStage p.max_composite_score (fun M r => oLe r.composite_score M) f8

/-- A serialized scoring record after the fillna cleaning (lines 765-774). -/
structure CleanScoringRecord where
  company_name : String
  industry : String
  employee_count : ℚ
  revenue : ℚ
  nr_fit_score : ℚ
  nr_tier : String
  contract_value : ℚ
  competitor_tool : Option String
  conversion_probability : ℚ
  engagement_score : ℚ
  urgency_score : ℚ
  composite_score : ℚ
deriving DecidableEq

def cleanScoringRow (r : ScoringRow) : CleanScoringRecord :=
  { company_name := r.lead.company_name
    industry := r.lead.industry
    employee_count := r.lead.employee_count
    revenue := r.lead.revenue
    nr_fit_score := r.lead.nr_fit_score.getD 0
    nr_tier := r.lead.nr_tier.getD "Standard"
    contract_value := r.lead.contract_value.getD 0
    competitor_tool := r.lead.competitor_tool
    conversion_probability := r.conversion_probability.getD 0
    engagement_score := r.engagement_score
    urgency_score := r.urgency_score
    composite_score := r.composite_score.getD 0 }

/-- Embedding of the body of get_lead_scoring_data given a loaded dataset:
derive, filter, sort by composite_score descending, truncate, clean. -/
def get_lead_scoring_data (leads : List Lead) (uConv uEng uUrg : ℚ)
    (p : ScoringParams) : List CleanScoringRecord :=
  (((sortDesc (fun r => r.composite_score)
      (get_lead_scoring_filtered leads uConv uEng uUrg p)).take p.limit).map cleanScoringRow)

/-! ## GET /api/leads/contract-value (backend/main.py lines 779-857)

random.uniform(10000, 50000), random.uniform(0, 1) and
random.uniform(0.6, 0.95) (lines 799-812) are scalars drawn once per request,
appearing here as the parameters uBase, uUp, uRen. -/

structure ContractParams where
  limit : ℕ := 100
  industry : Option String := none
  value_tier : Option String := none
  min_contract_value : Option ℚ := none
  max_contract_value : Option ℚ := none
  min_upsell_potential : Option ℚ := none
  max_upsell_potential : Option ℚ := none
  min_renewal_probability : Option ℚ := none
  max_renewal_probability : Option ℚ := none
deriving DecidableEq

/-- pd.cut with bins [0, 50000, 150000, 500000, inf] and labels Standard /
Professional / Enterprise / Strategic (lines 805-809): right-closed
intervals, values at or below the leftmost edge become NaN. -/
def value_tier_of (v : ℚ) : Option String :=
  if 0 < v ∧ v ≤ 50000 then some "Standard"
  else if 50000 < v ∧ v ≤ 150000 then some "Professional"
  else if 150000 < v ∧ v ≤ 500000 then some "Enterprise"
  else if 500000 < v then some "Strategic"
  else none

structure ContractRow where
  lead : Lead
  estimated_contract_value : ℚ
  value_tier : Option String
  upsell_potential : ℚ
  renewal_probability : ℚ
deriving DecidableEq

/-- Derived contract-value columns (lines 798-812): estimated_contract_value
= revenue * 0.02 + employee_count * 100 + uBase, value_tier from pd.cut,
upsell_potential = uUp, renewal_probability = uRen. -/
def mkContractRow (uBase uUp uRen : ℚ) (l : Lead) : ContractRow :=
  let est := l.revenue * 0.02 + l.employee_count * 100 + uBase
  { lead := l
    estimated_contract_value := est
    value_tier := value_tier_of est
    upsell_potential := uUp
    renewal_probability := uRen }

def mkContractRows (uBase uUp uRen : ℚ) (leads : List Lead) : List ContractRow :=
  leads.map (mkContractRow uBase uUp uRen)

/-- The filter chain of GET /api/leads/contract-value (lines 814-841), in
source order.  The value_tier equality filter compares against a possibly-NaN
categorical, which never equals a supplied tier. -/
def get_contract_value_filtered (leads : List Lead) (uBase uUp uRen : ℚ)
    (p : ContractParams) : List ContractRow :=
  let contract_data := mkContractRows uBase uUp uRen leads
  let f1 := strStage p.industry (fun r => r.lead.industry) contract_data
  let f2 := match p.value_tier with
    | none => f1
    | some t => if t = "" then f1 else
        f1.filter (fun r => match r.value_tier with
          | none => false
          | some rt => decide (rt = t))
  let f3 := optStage p.min_contract_value
    (fun m r => decide (m ≤ r.estimated_contract_value)) f2
  let f4 := optStage p.max_contract_value
    (fun M r => decide (r.estimated_contract_value ≤ M)) f3
  let f5 := optStage p.min_upsell_potential (fun m r => decide (m ≤ r.upsell_potential)) f4
  let f6 := optStage p.max_upsell_potential (fun M r => decide (r.upsell_potential ≤ M)) f5
  let f7 := optStage p.min_renewal_probability
    (fun m r => decide (m ≤ r.renewal_probability)) f6
  optStage p.max_renewal_probability (fun M r => decide (r.renewal_probability ≤ M)) f7

/-- A serialized contract-value record after the fillna cleaning (lines
846-854); value_tier is not in the fillna list and can serialize as null. -/
structure CleanContractRecord where
  company_name : String
  industry : String
  employee_count : ℚ
  revenue : ℚ
  nr_fit_score : ℚ
  nr_tier : String
  contract_value : ℚ
  competitor_tool : Option String
  estimated_contract_value : ℚ
  value_tier : Option String
  upsell_potential : ℚ
  renewal_probability : ℚ
deriving DecidableEq

def cleanContractRow (r : ContractRow) : CleanContractRecord :=
  { company_name := r.lead.company_name
    industry := r.lead.industry
    employee_count := r.lead.employee_count
    revenue := r.lead.revenue
    nr_fit_score := r.lead.nr_fit_score.getD 0
    nr_tier := r.lead.nr_tier.getD "Standard"
    contract_value := r.lead.contract_value.getD 0
    competitor_tool := r.lead.competitor_tool
    estimated_contract_value := r.estimated_contract_value
    value_tier := r.value_tier
    upsell_potential := r.upsell_potential
    renewal_probability := r.renewal_probability }

/-- Embedding of the body of get_contract_value_data given a loaded dataset:
derive, filter, sort by estimated_contract_value descending, truncate,
clean. -/
def get_contract_value_data (leads : List Lead) (uBase uUp uRen : ℚ)
    (p : ContractParams) : List CleanContractRecord :=
  (((sortDesc (fun r => some r.estimated_contract_value)
      (get_contract_value_filtered leads uBase uUp uRen p)).take p.limit).map
    cleanContractRow)

/-! ## POST /api/predict (backend/main.py lines 315-360)

With no trained models loaded (the normal state of the demo; the other branch
of the source is byte-for-byte the same mock code), each lead gets four
uniform-random mock scores; the summary computes
sum(propensity) / len(predictions), which in Python raises ZeroDivisionError
when the leads list is empty.  The division is therefore modelled in
Except. -/

structure MockDraw where
  propensity : ℚ
  contract : ℚ
  priority : ℚ
  confidence : ℚ
deriving DecidableEq

structure PredictionRow where
  company_name : String
  propensity_score : ℚ
  contract_value : ℚ
  priority_score : ℚ
  confidence : ℚ
deriving DecidableEq

structure PredictionSummary where
  total_leads : ℕ
  avg_propensity : ℚ
  total_potential_value : ℚ
  high_priority_count : ℕ
deriving DecidableEq

def mkPredictions (leads : List Lead) (draws : ℕ → MockDraw) : List PredictionRow :=
  leads.enum.map (fun q =>
    { company_name := q.2.company_name
      propensity_score := (draws q.1).propensity
      contract_value := (draws q.1).contract
      priority_score := (draws q.1).priority
      confidence := (draws q.1).confidence })

/-- Embedding of predict_leads (lines 315-360): the summary divides the
propensity sum by len(predictions) with no guard, so an empty leads list
raises ZeroDivisionError instead of producing a response. -/
def predict_leads (leads : List Lead) (draws : ℕ → MockDraw) :
    Except String (List PredictionRow × PredictionSummary) :=
  let predictions := mkPredictions leads draws
  if predictions.length = 0 then
    .error "ZeroDivisionError: division by zero"
  else
    .ok (predictions,
      { total_leads := predictions.length
        avg_propensity :=
          (predictions.map (fun q => q.propensity_score)).sum / predictions.length
        total_potential_value := (predictions.map (fun q => q.contract_value)).sum
        high_priority_count :=
          (predictions.filter (fun q => decide ((0.7 : ℚ) < q.priority_score))).length })

/-! ## generate_executive_summary (backend/main.py lines 60-162)

The external generative backend is modelled by its outcome: it either raises
(any exception inside the try block, including the generate_content call) or
returns a response object whose text attribute may be absent.  The digest and
prompt strings built inside the try block feed only that external call and do
not affect the control flow of the function. -/

inductive GenOutcome where
  | ok (text : Option String)
  | raised (msg : String)
deriving DecidableEq

/-- Embedding of generate_executive_summary: with no configured model it
returns the fixed sentinel (lines 62-63); a raising backend outcome is mapped
to a returned string in every case (lines 159-162) — no exception escapes. -/
def generate_executive_summary (modelConfigured : Bool) (backend : GenOutcome) : String :=
  if !modelConfigured then
    "AI summary unavailable - Gemini API key not configured"
  else
    match backend with
    | .ok (some t) => t
    | .ok none => "No AI response text available"
    | .raised e => "Error generating summary: " ++ e

/-! ## Concrete sample data used by the witness theorems -/

def leadA : Lead :=
  { company_name := "Acme", industry := "Technology", employee_count := 2000,
    revenue := 5000000, nr_fit_score := some 0.9, nr_tier := some "Pro",
    contract_value := some 50000, competitor_tool := some "Datadog" }

def leadB : Lead :=
  { company_name := "Beta", industry := "Healthcare", employee_count := 10,
    revenue := 100000, nr_fit_score := some 0.1, nr_tier := none,
    contract_value := none, competitor_tool := none }

def testLeads : List Lead := [leadA, leadB]

def testDays : ℕ → ℚ := fun _ => 30

def testDraw : MockDraw :=
  { propensity := 0.5, contract := 100000, priority := 0.5, confidence := 0.8 }

def sourcingRowA : SourcingRow :=
  { lead := leadA, days_since_created := 30, sourcing_score := some 2.46 }

def sourcingRowB : SourcingRow :=
  { lead := leadB, days_since_created := 30, sourcing_score := some 0.073 }

def cleanSourcingA : CleanSourcingRecord :=
  { company_name := "Acme", industry := "Technology", employee_count := 2000,
    revenue := 5000000, nr_fit_score := 0.9, nr_tier := "Pro", contract_value := 50000,
    competitor_tool := some "Datadog", sourcing_score := 2.46, days_since_created := 30 }

def cleanScoringA : CleanScoringRecord :=
  { company_name := "Acme", industry := "Technology", employee_count := 2000,
    revenue := 5000000, nr_fit_score := 0.9, nr_tier := "Pro", contract_value := 50000,
    competitor_tool := some "Datadog", conversion_probability := 0.83,
    engagement_score := 0.5, urgency_score := 0.5, composite_score := 0.665 }

def cleanScoringB : CleanScoringRecord :=
  { company_name := "Beta", industry := "Healthcare", employee_count := 10,
    revenue := 100000, nr_fit_score := 0.1, nr_tier := "Standard", contract_value := 0,
    competitor_tool := none, conversion_probability := 0.27,
    engagement_score := 0.5, urgency_score := 0.5, composite_score := 0.385 }

/-! # Theorems -/

/-! ## Structural lemmas about the serialization helpers -/

mutual
theorem hasNaN_clean (v : PyVal) : hasNaN (clean_data_for_json v) = false := by
  cases v with
  | npFloat f => cases f <;> simp [clean_data_for_json, hasNaN, PFloat.isnan]
  | pyFloat f => cases f <;> simp [clean_data_for_json, hasNaN, PFloat.isnan]
  | list xs => simpa [clean_data_for_json, hasNaN] using hasNaN_clean_list xs
  | dict kvs => simpa [clean_data_for_json, hasNaN] using hasNaN_clean_dict kvs
  | _ => simp [clean_data_for_json, hasNaN]
theorem hasNaN_clean_list (xs : PyList) :
    hasNaNList (clean_data_for_json_list xs) = false := by
  cases xs with
  | nil => simp [clean_data_for_json_list, hasNaNList]
  | cons v rest =>
    simp [clean_data_for_json_list, hasNaNList, hasNaN_clean v, hasNaN_clean_list rest]
theorem hasNaN_clean_dict (kvs : PyDict) :
    hasNaNDict (clean_data_for_json_dict kvs) = false := by
  cases kvs with
  | nil => simp [clean_data_for_json_dict, hasNaNDict]
  | cons k v rest =>
    simp [clean_data_for_json_dict, hasNaNDict, hasNaN_clean v, hasNaN_clean_dict rest]
end

mutual
theorem hasNpNonFinite_convert (v : PyVal) :
    hasNpNonFinite (convert_numpy_types v) = false := by
  cases v with
  | npInt n => simp [convert_numpy_types, hasNpNonFinite]
  | npFloat f =>
    cases f <;> simp [convert_numpy_types, hasNpNonFinite, PFloat.isnan, PFloat.isinf]
  | list xs =>
    simpa [convert_numpy_types, hasNpNonFinite] using hasNpNonFinite_convert_list xs
  | dict kvs =>
    simpa [convert_numpy_types, hasNpNonFinite] using hasNpNonFinite_convert_dict kvs
  | _ => simp [convert_numpy_types, hasNpNonFinite]
theorem hasNpNonFinite_convert_list (xs : PyList) :
    hasNpNonFiniteList (convert_numpy_types_list xs) = false := by
  cases xs with
  | nil => simp [convert_numpy_types_list, hasNpNonFiniteList]
  | cons v rest =>
    simp [convert_numpy_types_list, hasNpNonFiniteList, hasNpNonFinite_convert v,
      hasNpNonFinite_convert_list rest]
theorem hasNpNonFinite_convert_dict (kvs : PyDict) :
    hasNpNonFiniteDict (convert_numpy_types_dict kvs) = false := by
  cases kvs with
  | nil => simp [convert_numpy_types_dict, hasNpNonFiniteDict]
  | cons k v rest =>
    simp [convert_numpy_types_dict, hasNpNonFiniteDict, hasNpNonFinite_convert v,
      hasNpNonFinite_convert_dict rest]
end

/-! ## Lemmas about the filter and sort combinators -/

theorem mem_optStage {param : Option β} {pred : β → α → Bool} {l : List α} {a : α} :
    a ∈ optStage param pred l ↔ a ∈ l ∧ ∀ b, param = some b → pred b a = true := by
  cases param <;> simp [optStage, List.mem_filter]

theorem mem_strStage {param : Option String} {field : α → String} {l : List α} {a : α} :
    a ∈ strStage param field l ↔
      a ∈ l ∧ ∀ s, param = some s → s ≠ "" → field a = s := by
  cases param with
  | none => simp [strStage]
  | some s =>
    by_cases hs : s = "" <;> simp [strStage, hs, List.mem_filter]

theorem length_insertDesc (key : α → Option ℚ) (x : α) (l : List α) :
    (insertDesc key x l).length = l.length + 1 := by
  induction l with
  | nil => rfl
  | cons y ys ih =>
    by_cases h : oLT (key y) (key x) <;> simp [insertDesc, h, ih]

theorem length_sortDesc (key : α → Option ℚ) (l : List α) :
    (sortDesc key l).length = l.length := by
  induction l with
  | nil => rfl
  | cons x xs ih => simp [sortDesc, length_insertDesc, ih]

theorem mem_insertDesc {key : α → Option ℚ} {x a : α} {l : List α} :
    a ∈ insertDesc key x l ↔ a = x ∨ a ∈ l := by
  induction l with
  | nil => simp [insertDesc]
  | cons y ys ih =>
    by_cases h : oLT (key y) (key x) <;> simp [insertDesc, h, ih]
    tauto

theorem mem_sortDesc {key : α → Option ℚ} {a : α} {l : List α} :
    a ∈ sortDesc key l ↔ a ∈ l := by
  induction l with
  | nil => simp [sortDesc]
  | cons x xs ih => simp [sortDesc, mem_insertDesc, ih]

/-! ## Membership characterizations of the three filter chains -/

theorem mem_mkSourcingRows {days : ℕ → ℚ} {i : ℕ} {leads : List Lead} {row : SourcingRow} :
    row ∈ mkSourcingRows days i leads →
      row.lead ∈ leads ∧ row.sourcing_score = sourcing_score row.lead := by
  induction leads generalizing i with
  | nil => simp [mkSourcingRows]
  | cons l ls ih =>
    intro h
    simp only [mkSourcingRows, List.mem_cons] at h
    rcases h with h | h
    · subst h; simp
    · rcases ih h with ⟨h1, h2⟩
      exact ⟨List.mem_cons_of_mem _ h1, h2⟩

theorem mem_sourcing_filtered {leads : List Lead} {days : ℕ → ℚ} {p : SourcingParams}
    {row : SourcingRow} :
    row ∈ get_lead_sourcing_filtered leads days p ↔
      row ∈ mkSourcingRows days 0 leads
      ∧ (∀ s, p.industry = some s → s ≠ "" → row.lead.industry = s)
      ∧ (∀ m, p.min_employee_count = some m → m ≤ row.lead.employee_count)
      ∧ (∀ M, p.max_employee_count = some M → row.lead.employee_count ≤ M)
      ∧ (∀ m, p.min_sourcing_score = some m → oGe row.sourcing_score m = true)
      ∧ (∀ M, p.max_sourcing_score = some M → oLe row.sourcing_score M = true)
      ∧ (∀ d, p.days_since_created_max = some d → row.days_since_created ≤ d)
      ∧ (p.min_sourcing_score = none → p.max_sourcing_score = none →
          oGt row.sourcing_score 0.6 = true) := by
  cases hmin : p.min_sourcing_score <;> cases hmax : p.max_sourcing_score <;>
    simp [get_lead_sourcing_filtered, hmin, hmax, mem_optStage, mem_strStage,
      List.mem_filter] <;> tauto

theorem mem_mkScoringRows {uConv uEng uUrg : ℚ} {leads : List Lead} {row : ScoringRow} :
    row ∈ mkScoringRows uConv uEng uUrg leads →
      row.lead ∈ leads
      ∧ row.conversion_probability = row.lead.nr_fit_score.map (fun f => f * 0.7 + uConv)
      ∧ row.engagement_score = uEng ∧ row.urgency_score = uUrg := by
  intro h
  rcases List.mem_map.mp h with ⟨l, hl, he⟩
  subst he
  simp [mkScoringRow, hl]

theorem mem_scoring_filtered {leads : List Lead} {uConv uEng uUrg : ℚ}
    {p : ScoringParams} {row : ScoringRow} :
    row ∈ get_lead_scoring_filtered leads uConv uEng uUrg p ↔
      row ∈ mkScoringRows uConv uEng uUrg leads
      ∧ (∀ s, p.industry = some s → s ≠ "" → row.lead.industry = s)
      ∧ (∀ m, p.min_conversion_probability = some m →
          oGe row.conversion_probability m = true)
      ∧ (∀ M, p.max_conversion_probability = some M →
          oLe row.conversion_probability M = true)
      ∧ (∀ m, p.min_engagement_score = some m → m ≤ row.engagement_score)
      ∧ (∀ M, p.max_engagement_score = some M → row.engagement_score ≤ M)
      ∧ (∀ m, p.min_urgency_score = some m → m ≤ row.urgency_score)
      ∧ (∀ M, p.max_urgency_score = some M → row.urgency_score ≤ M)
      ∧ (∀ m, p.min_composite_score = some m → oGe row.composite_score m = true)
      ∧ (∀ M, p.max_composite_score = some M → oLe row.composite_score M = true) := by
  simp [get_lead_scoring_filtered, mem_optStage, mem_strStage]
  tauto

theorem mem_mkContractRows {uBase uUp uRen : ℚ} {leads : List Lead} {row : ContractRow} :
    row ∈ mkContractRows uBase uUp uRen leads →
      row.lead ∈ leads
      ∧ row.estimated_contract_value
          = row.lead.revenue * 0.02 + row.lead.employee_count * 100 + uBase
      ∧ row.upsell_potential = uUp ∧ row.renewal_probability = uRen := by
  intro h
  rcases List.mem_map.mp h with ⟨l, hl, he⟩
  subst he
  simp [mkContractRow, hl]

theorem mem_contract_filtered {leads : List Lead} {uBase uUp uRen : ℚ}
    {p : ContractParams} {row : ContractRow} :
    row ∈ get_contract_value_filtered leads uBase uUp uRen p ↔
      row ∈ mkContractRows uBase uUp uRen leads
      ∧ (∀ s, p.industry = some s → s ≠ "" → row.lead.industry = s)
      ∧ (∀ t, p.value_tier = some t → t ≠ "" → row.value_tier = some t)
      ∧ (∀ m, p.min_contract_value = some m → m ≤ row.estimated_contract_value)
      ∧ (∀ M, p.max_contract_value = some M → row.estimated_contract_value ≤ M)
      ∧ (∀ m, p.min_upsell_potential = some m → m ≤ row.upsell_potential)
      ∧ (∀ M, p.max_upsell_potential = some M → row.upsell_potential ≤ M)
      ∧ (∀ m, p.min_renewal_probability = some m → m ≤ row.renewal_probability)
      ∧ (∀ M, p.max_renewal_probability = some M → row.renewal_probability ≤ M) := by
  cases hvt : p.value_tier with
  | none =>
    simp [get_contract_value_filtered, hvt, mem_optStage, mem_strStage]
    tauto
  | some t =>
    by_cases ht : t = ""
    · subst ht
      simp [get_contract_value_filtered, hvt, mem_optStage, mem_strStage]
      tauto
    · simp [get_contract_value_filtered, hvt, ht, mem_optStage, mem_strStage,
        List.mem_filter]
      cases hrt : row.value_tier <;> (simp [hrt]; try tauto)

/-! ## Inversion helpers for the NaN-aware comparisons -/

theorem oGe_some {x : Option ℚ} {m : ℚ} (h : oGe x m = true) :
    ∃ a, x = some a ∧ m ≤ a := by
  cases x with
  | none => simp [oGe] at h
  | some a => exact ⟨a, rfl, by simpa [oGe] using h⟩

theorem oLe_some {x : Option ℚ} {M : ℚ} (h : oLe x M = true) :
    ∃ a, x = some a ∧ a ≤ M := by
  cases x with
  | none => simp [oLe] at h
  | some a => exact ⟨a, rfl, by simpa [oLe] using h⟩

theorem oGt_some {x : Option ℚ} {m : ℚ} (h : oGt x m = true) :
    ∃ a, x = some a ∧ m < a := by
  cases x with
  | none => simp [oGt] at h
  | some a => exact ⟨a, rfl, by simpa [oGt] using h⟩

/-! ## From a serialized record back to its filtered row -/

theorem mem_sourcing_output {leads : List Lead} {days : ℕ → ℚ} {p : SourcingParams}
    {r : CleanSourcingRecord} (h : r ∈ get_lead_sourcing_data leads days p) :
    ∃ row, row ∈ get_lead_sourcing_filtered leads days p ∧ r = cleanSourcingRow row := by
  rcases List.mem_map.mp h with ⟨row, hrow, he⟩
  exact ⟨row, mem_sortDesc.mp (List.take_subset _ _ hrow), he.symm⟩

theorem mem_scoring_output {leads : List Lead} {uConv uEng uUrg : ℚ} {p : ScoringParams}
    {r : CleanScoringRecord} (h : r ∈ get_lead_scoring_data leads uConv uEng uUrg p) :
    ∃ row, row ∈ get_lead_scoring_filtered leads uConv uEng uUrg p ∧
      r = cleanScoringRow row := by
  rcases List.mem_map.mp h with ⟨row, hrow, he⟩
  exact ⟨row, mem_sortDesc.mp (List.take_subset _ _ hrow), he.symm⟩

theorem mem_contract_output {leads : List Lead} {uBase uUp uRen : ℚ} {p : ContractParams}
    {r : CleanContractRecord} (h : r ∈ get_contract_value_data leads uBase uUp uRen p) :
    ∃ row, row ∈ get_contract_value_filtered leads uBase uUp uRen p ∧
      r = cleanContractRow row := by
  rcases List.mem_map.mp h with ⟨row, hrow, he⟩
  exact ⟨row, mem_sortDesc.mp (List.take_subset _ _ hrow), he.symm⟩

/-! ## Evaluations of the pipelines on the concrete sample data -/

theorem mkrows_eval : mkSourcingRows testDays 0 testLeads = [sourcingRowA, sourcingRowB] := by
  norm_num [mkSourcingRows, testLeads, testDays, leadA, leadB, sourcing_score,
    sourcingRowA, sourcingRowB]

theorem sourcing_filtered_eval :
    get_lead_sourcing_filtered testLeads testDays {} = [sourcingRowA] := by
  norm_num [get_lead_sourcing_filtered, mkSourcingRows, strStage, optStage, sourcing_score,
    oGt, testLeads, testDays, leadA, leadB, sourcingRowA, List.filter_cons]

theorem sourcing_eval :
    get_lead_sourcing_data testLeads testDays {} = [cleanSourcingA] := by
  norm_num [get_lead_sourcing_data, get_lead_sourcing_filtered, mkSourcingRows, strStage,
    optStage, sourcing_score, oGt, testLeads, testDays, leadA, leadB, List.filter_cons,
    sortDesc, insertDesc, cleanSourcingRow, cleanSourcingA]

theorem scoring_eval :
    get_lead_scoring_data testLeads 0.2 0.5 0.5 {} = [cleanScoringA, cleanScoringB] := by
  norm_num [get_lead_scoring_data, get_lead_scoring_filtered, mkScoringRows, mkScoringRow,
    strStage, optStage, testLeads, leadA, leadB, sortDesc, insertDesc, oLT,
    cleanScoringRow, cleanScoringA, cleanScoringB]

/-! ## The claims -/

/-- Claim C1 (code bug): POST /api/predict with an empty leads list is
required by the spec to produce a well-defined summary (avg_propensity 0)
instead of an exception, but the source computes
sum(propensity) / len(predictions) unguarded, so the embedded predict_leads
raises ZeroDivisionError on the empty list. -/
theorem claim_C1_predict_empty_division :
    predict_leads [] (fun _ => testDraw) =
      Except.error "ZeroDivisionError: division by zero" := rfl

/-- Counterexample to claim C2 as stated: clean_data_for_json does not
canonicalize Infinity — cleaning a positive-infinity float yields a value
that still contains an Infinity token. -/
theorem claim_C2_counterexample :
    hasInf (clean_data_for_json (PyVal.pyFloat PFloat.inf)) = true := rfl

/-- Claim C2, amended: every NaN is canonicalized — clean_data_for_json maps
NaN (numpy or native) to None, and convert_numpy_types maps every non-finite
numpy float to 0.0 — but clean_data_for_json passes infinite float values
through unchanged (it checks np.isnan only, never np.isinf). -/
theorem claim_C2_amended :
    (∀ v, hasNaN (clean_data_for_json v) = false)
    ∧ (∀ v, hasNpNonFinite (convert_numpy_types v) = false)
    ∧ clean_data_for_json (PyVal.pyFloat PFloat.inf) = PyVal.pyFloat PFloat.inf
    ∧ clean_data_for_json (PyVal.pyFloat PFloat.ninf) = PyVal.pyFloat PFloat.ninf :=
  ⟨hasNaN_clean, hasNpNonFinite_convert, rfl, rfl⟩

/-- Claim C3: for GET /api/leads/sourcing, when the caller supplies neither
sourcing-score bound, only rows with sourcing_score strictly above 0.6 are
kept; when the caller supplies a min (resp. max) bound, membership in the
filtered set is exactly the conjunction of the other filters with that bound
— the 0.6 default floor does not appear at all, however weak the supplied
bound is. -/
theorem claim_C3_default_floor (leads : List Lead) (days : ℕ → ℚ) (p : SourcingParams) :
    (p.min_sourcing_score = none → p.max_sourcing_score = none →
      ∀ row ∈ get_lead_sourcing_filtered leads days p,
        ∃ s, row.sourcing_score = some s ∧ (0.6 : ℚ) < s)
    ∧ (∀ m, p.min_sourcing_score = some m →
        ∀ row, row ∈ get_lead_sourcing_filtered leads days p ↔
          row ∈ mkSourcingRows days 0 leads
          ∧ (∀ s, p.industry = some s → s ≠ "" → row.lead.industry = s)
          ∧ (∀ a, p.min_employee_count = some a → a ≤ row.lead.employee_count)
          ∧ (∀ b, p.max_employee_count = some b → row.lead.employee_count ≤ b)
          ∧ oGe row.sourcing_score m = true
          ∧ (∀ M, p.max_sourcing_score = some M → oLe row.sourcing_score M = true)
          ∧ (∀ d, p.days_since_created_max = some d → row.days_since_created ≤ d))
    ∧ (∀ M, p.max_sourcing_score = some M →
        ∀ row, row ∈ get_lead_sourcing_filtered leads days p ↔
          row ∈ mkSourcingRows days 0 leads
          ∧ (∀ s, p.industry = some s → s ≠ "" → row.lead.industry = s)
          ∧ (∀ a, p.min_employee_count = some a → a ≤ row.lead.employee_count)
          ∧ (∀ b, p.max_employee_count = some b → row.lead.employee_count ≤ b)
          ∧ (∀ m, p.min_sourcing_score = some m → oGe row.sourcing_score m = true)
          ∧ oLe row.sourcing_score M = true
          ∧ (∀ d, p.days_since_created_max = some d → row.days_since_created ≤ d)) := by
  refine ⟨?_, ?_, ?_⟩
  · intro h1 h2 row hrow
    have h8 := (mem_sourcing_filtered.mp hrow).2.2.2.2.2.2.2
    exact oGt_some (h8 h1 h2)
  · intro m hm row
    rw [mem_sourcing_filtered]
    simp [hm]
    try tauto
  · intro M hM row
    rw [mem_sourcing_filtered]
    simp [hM]
    try tauto

/-- Witness for claim C3: on the sample data with no bounds the only kept row
has sourcing_score 2.46 above the floor, and with min_sourcing_score 0.05 the
row with sourcing_score 0.073 (well below 0.6) is kept — the floor is
suppressed. -/
theorem claim_C3_witness :
    sourcingRowA ∈ get_lead_sourcing_filtered testLeads testDays {}
    ∧ (∃ s, sourcingRowA.sourcing_score = some s ∧ (0.6 : ℚ) < s)
    ∧ sourcingRowB ∈ get_lead_sourcing_filtered testLeads testDays
        { min_sourcing_score := some 0.05 } := by
  have hA : sourcingRowA ∈ get_lead_sourcing_filtered testLeads testDays {} := by
    rw [sourcing_filtered_eval]
    exact List.mem_singleton.mpr rfl
  have hfloor := (claim_C3_default_floor testLeads testDays {}).1 rfl rfl sourcingRowA hA
  have hmemB : sourcingRowB ∈ mkSourcingRows testDays 0 testLeads := by
    rw [mkrows_eval]; simp
  have hB := ((claim_C3_default_floor testLeads testDays
      { min_sourcing_score := some 0.05 }).2.1 0.05 rfl sourcingRowB).mpr
    ⟨hmemB, by simp, by simp, by simp, by norm_num [sourcingRowB, oGe], by simp, by simp⟩
  exact ⟨hA, hfloor, hB⟩

/-- Claim C4: every record returned by GET /api/leads/sourcing carries a
sourcing_score equal to exactly nr_fit_score * 0.4 + (employee_count / 1000)
* 0.3 + (revenue / 1000000) * 0.3 of that same record, with no random term.
(Rows whose score is NaN never reach the output: every configuration of the
score filters — including the default floor — drops them.) -/
theorem claim_C4_sourcing_formula (leads : List Lead) (days : ℕ → ℚ) (p : SourcingParams) :
    ∀ r ∈ get_lead_sourcing_data leads days p,
      r.sourcing_score =
        r.nr_fit_score * 0.4 + (r.employee_count / 1000) * 0.3
          + (r.revenue / 1000000) * 0.3 := by
  intro r hr
  obtain ⟨row, hrowf, rfl⟩ := mem_sourcing_output hr
  obtain ⟨hmk, -, -, -, h5, h6, -, h8⟩ := mem_sourcing_filtered.mp hrowf
  obtain ⟨-, hscore⟩ := mem_mkSourcingRows hmk
  have hsome : ∃ s, row.sourcing_score = some s := by
    cases hmin : p.min_sourcing_score with
    | some m =>
      obtain ⟨a, ha, -⟩ := oGe_some (h5 m hmin)
      exact ⟨a, ha⟩
    | none =>
      cases hmax : p.max_sourcing_score with
      | some M =>
        obtain ⟨a, ha, -⟩ := oLe_some (h6 M hmax)
        exact ⟨a, ha⟩
      | none =>
        obtain ⟨a, ha, -⟩ := oGt_some (h8 hmin hmax)
        exact ⟨a, ha⟩
  obtain ⟨s, hs⟩ := hsome
  cases hf : row.lead.nr_fit_score with
  | none =>
    rw [hscore, sourcing_score, hf] at hs
    simp at hs
  | some f =>
    have hval : s = f * 0.4 + (row.lead.employee_count / 1000) * 0.3
        + (row.lead.revenue / 1000000) * 0.3 := by
      rw [hscore, sourcing_score, hf] at hs
      simpa using hs.symm
    simp [cleanSourcingRow, hf, hs, hval]

/-- Witness for claim C4: the record returned for the sample data satisfies
the sourcing-score formula (0.9 * 0.4 + 2 * 0.3 + 5 * 0.3 = 2.46). -/
theorem claim_C4_witness :
    cleanSourcingA ∈ get_lead_sourcing_data testLeads testDays {}
    ∧ cleanSourcingA.sourcing_score =
        cleanSourcingA.nr_fit_score * 0.4 + (cleanSourcingA.employee_count / 1000) * 0.3
          + (cleanSourcingA.revenue / 1000000) * 0.3 := by
  have hm : cleanSourcingA ∈ get_lead_sourcing_data testLeads testDays {} := by
    rw [sourcing_eval]
    exact List.mem_singleton.mpr rfl
  exact ⟨hm, claim_C4_sourcing_formula testLeads testDays {} cleanSourcingA hm⟩

/-- Claim C5: with the per-request random term uConv drawn from [0, 0.3],
every record returned by GET /api/leads/scoring has conversion_probability in
the closed interval [nr_fit_score * 0.7, nr_fit_score * 0.7 + 0.3].  (A NaN
fit score is cleaned to 0 together with its conversion probability, which
also lies in the interval.) -/
theorem claim_C5_conversion_range (leads : List Lead) (uConv uEng uUrg : ℚ)
    (p : ScoringParams) (h0 : 0 ≤ uConv) (h3 : uConv ≤ 0.3) :
    ∀ r ∈ get_lead_scoring_data leads uConv uEng uUrg p,
      r.nr_fit_score * 0.7 ≤ r.conversion_probability
      ∧ r.conversion_probability ≤ r.nr_fit_score * 0.7 + 0.3 := by
  intro r hr
  obtain ⟨row, hrowf, rfl⟩ := mem_scoring_output hr
  obtain ⟨hlead, hconv, -, -⟩ := mem_mkScoringRows (mem_scoring_filtered.mp hrowf).1
  cases hf : row.lead.nr_fit_score with
  | none =>
    have hc : row.conversion_probability = none := by rw [hconv, hf]; rfl
    constructor <;> (simp [cleanScoringRow, hc, hf]; try norm_num)
  | some f =>
    have hc : row.conversion_probability = some (f * 0.7 + uConv) := by rw [hconv, hf]; rfl
    constructor <;> (simp [cleanScoringRow, hc, hf]; linarith)

/-- Witness for claim C5: with uConv = 0.2 the returned sample record has
conversion_probability 0.83 inside [0.9 * 0.7, 0.9 * 0.7 + 0.3]. -/
theorem claim_C5_witness :
    (0 : ℚ) ≤ 0.2 ∧ (0.2 : ℚ) ≤ 0.3
    ∧ cleanScoringA ∈ get_lead_scoring_data testLeads 0.2 0.5 0.5 {}
    ∧ cleanScoringA.nr_fit_score * 0.7 ≤ cleanScoringA.conversion_probability
    ∧ cleanScoringA.conversion_probability ≤ cleanScoringA.nr_fit_score * 0.7 + 0.3 := by
  have hm : cleanScoringA ∈ get_lead_scoring_data testLeads 0.2 0.5 0.5 {} := by
    rw [scoring_eval]; simp
  have h := claim_C5_conversion_range testLeads 0.2 0.5 0.5 {} (by norm_num) (by norm_num)
    cleanScoringA hm
  exact ⟨by norm_num, by norm_num, hm, h.1, h.2⟩

/-- Claim C6: for each of the three filter/derive/sort endpoints and every
non-negative limit, the number of returned records is exactly the minimum of
the limit and the number of rows passing all applied filters. -/
theorem claim_C6_result_length (leads : List Lead) (days : ℕ → ℚ)
    (uConv uEng uUrg uBase uUp uRen : ℚ) (ps : SourcingParams) (pc : ScoringParams)
    (pv : ContractParams) :
    (get_lead_sourcing_data leads days ps).length
        = min ps.limit (get_lead_sourcing_filtered leads days ps).length
    ∧ (get_lead_scoring_data leads uConv uEng uUrg pc).length
        = min pc.limit (get_lead_scoring_filtered leads uConv uEng uUrg pc).length
    ∧ (get_contract_value_data leads uBase uUp uRen pv).length
        = min pv.limit (get_contract_value_filtered leads uBase uUp uRen pv).length := by
  refine ⟨?_, ?_, ?_⟩ <;>
    simp [get_lead_sourcing_data, get_lead_scoring_data, get_contract_value_data,
      List.length_map, List.length_take, length_sortDesc]

/-- Claim C8: on each of the three endpoints, supplying a min and max bound
on the same field with min strictly greater than max yields the empty result
(the request is processed normally — modelled by the endpoint returning a
value — and never rejected). -/
theorem claim_C8_conflicting_bounds_empty (leads : List Lead) (days : ℕ → ℚ)
    (uConv uEng uUrg uBase uUp uRen : ℚ) :
    (∀ p : SourcingParams, ∀ m M, p.min_sourcing_score = some m →
        p.max_sourcing_score = some M → M < m →
        get_lead_sourcing_data leads days p = [])
    ∧ (∀ p : SourcingParams, ∀ m M, p.min_employee_count = some m →
        p.max_employee_count = some M → M < m →
        get_lead_sourcing_data leads days p = [])
    ∧ (∀ p : ScoringParams, ∀ m M, p.min_conversion_probability = some m →
        p.max_conversion_probability = some M → M < m →
        get_lead_scoring_data leads uConv uEng uUrg p = [])
    ∧ (∀ p : ScoringParams, ∀ m M, p.min_engagement_score = some m →
        p.max_engagement_score = some M → M < m →
        get_lead_scoring_data leads uConv uEng uUrg p = [])
    ∧ (∀ p : ScoringParams, ∀ m M, p.min_urgency_score = some m →
        p.max_urgency_score = some M → M < m →
        get_lead_scoring_data leads uConv uEng uUrg p = [])
    ∧ (∀ p : ScoringParams, ∀ m M, p.min_composite_score = some m →
        p.max_composite_score = some M → M < m →
        get_lead_scoring_data leads uConv uEng uUrg p = [])
    ∧ (∀ p : ContractParams, ∀ m M, p.min_contract_value = some m →
        p.max_contract_value = some M → M < m →
        get_contract_value_data leads uBase uUp uRen p = [])
    ∧ (∀ p : ContractParams, ∀ m M, p.min_upsell_potential = some m →
        p.max_upsell_potential = some M → M < m →
        get_contract_value_data leads uBase uUp uRen p = [])
    ∧ (∀ p : ContractParams, ∀ m M, p.min_renewal_probability = some m →
        p.max_renewal_probability = some M → M < m →
        get_contract_value_data leads uBase uUp uRen p = []) := by
  refine ⟨?_, ?_, ?_, ?_, ?_, ?_, ?_, ?_, ?_⟩
  all_goals intro p m M hm hM hlt
  · have hnil : get_lead_sourcing_filtered leads days p = [] := by
      rw [List.eq_nil_iff_forall_not_mem]
      intro row hrow
      obtain ⟨-, -, -, -, h5, h6, -, -⟩ := mem_sourcing_filtered.mp hrow
      obtain ⟨a, ha, hma⟩ := oGe_some (h5 m hm)
      obtain ⟨b, hb, hbM⟩ := oLe_some (h6 M hM)
      rw [ha] at hb
      have hab := Option.some.inj hb
      subst hab
      linarith
    simp [get_lead_sourcing_data, hnil, sortDesc]
  · have hnil : get_lead_sourcing_filtered leads days p = [] := by
      rw [List.eq_nil_iff_forall_not_mem]
      intro row hrow
      obtain ⟨-, -, h3, h4, -, -, -, -⟩ := mem_sourcing_filtered.mp hrow
      have := h3 m hm
      have := h4 M hM
      linarith
    simp [get_lead_sourcing_data, hnil, sortDesc]
  · have hnil : get_lead_scoring_filtered leads uConv uEng uUrg p = [] := by
      rw [List.eq_nil_iff_forall_not_mem]
      intro row hrow
      obtain ⟨-, -, h3, h4, -, -, -, -, -, -⟩ := mem_scoring_filtered.mp hrow
      obtain ⟨a, ha, hma⟩ := oGe_some (h3 m hm)
      obtain ⟨b, hb, hbM⟩ := oLe_some (h4 M hM)
      rw [ha] at hb
      have hab := Option.some.inj hb
      subst hab
      linarith
    simp [get_lead_scoring_data, hnil, sortDesc]
  · have hnil : get_lead_scoring_filtered leads uConv uEng uUrg p = [] := by
      rw [List.eq_nil_iff_forall_not_mem]
      intro row hrow
      obtain ⟨-, -, -, -, h5, h6, -, -, -, -⟩ := mem_scoring_filtered.mp hrow
      have := h5 m hm
      have := h6 M hM
      linarith
    simp [get_lead_scoring_data, hnil, sortDesc]
  · have hnil : get_lead_scoring_filtered leads uConv uEng uUrg p = [] := by
      rw [List.eq_nil_iff_forall_not_mem]
      intro row hrow
      obtain ⟨-, -, -, -, -, -, h7, h8, -, -⟩ := mem_scoring_filtered.mp hrow
      have := h7 m hm
      have := h8 M hM
      linarith
    simp [get_lead_scoring_data, hnil, sortDesc]
  · have hnil : get_lead_scoring_filtered leads uConv uEng uUrg p = [] := by
      rw [List.eq_nil_iff_forall_not_mem]
      intro row hrow
      obtain ⟨-, -, -, -, -, -, -, -, h9, h10⟩ := mem_scoring_filtered.mp hrow
      obtain ⟨a, ha, hma⟩ := oGe_some (h9 m hm)
      obtain ⟨b, hb, hbM⟩ := oLe_some (h10 M hM)
      rw [ha] at hb
      have hab := Option.some.inj hb
      subst hab
      linarith
    simp [get_lead_scoring_data, hnil, sortDesc]
  · have hnil : get_contract_value_filtered leads uBase uUp uRen p = [] := by
      rw [List.eq_nil_iff_forall_not_mem]
      intro row hrow
      obtain ⟨-, -, -, h4, h5, -, -, -, -⟩ := mem_contract_filtered.mp hrow
      have := h4 m hm
      have := h5 M hM
      linarith
    simp [get_contract_value_data, hnil, sortDesc]
  · have hnil : get_contract_value_filtered leads uBase uUp uRen p = [] := by
      rw [List.eq_nil_iff_forall_not_mem]
      intro row hrow
      obtain ⟨-, -, -, -, -, h6, h7, -, -⟩ := mem_contract_filtered.mp hrow
      have := h6 m hm
      have := h7 M hM
      linarith
    simp [get_contract_value_data, hnil, sortDesc]
  · have hnil : get_contract_value_filtered leads uBase uUp uRen p = [] := by
      rw [List.eq_nil_iff_forall_not_mem]
      intro row hrow
      obtain ⟨-, -, -, -, -, -, -, h8, h9⟩ := mem_contract_filtered.mp hrow
      have := h8 m hm
      have := h9 M hM
      linarith
    simp [get_contract_value_data, hnil, sortDesc]

/-- Witness for claim C8: each endpoint instantiated with a pair of
conflicting bounds on each filterable field returns the empty result. -/
theorem claim_C8_witness :
    get_lead_sourcing_data testLeads testDays
        { min_sourcing_score := some 0.9, max_sourcing_score := some 0.2 } = []
    ∧ get_lead_sourcing_data testLeads testDays
        { min_employee_count := some 100, max_employee_count := some 50 } = []
    ∧ get_lead_scoring_data testLeads 0.2 0.5 0.5
        { min_conversion_probability := some 0.8, max_conversion_probability := some 0.4 }
        = []
    ∧ get_lead_scoring_data testLeads 0.2 0.5 0.5
        { min_engagement_score := some 0.8, max_engagement_score := some 0.4 } = []
    ∧ get_lead_scoring_data testLeads 0.2 0.5 0.5
        { min_urgency_score := some 0.8, max_urgency_score := some 0.4 } = []
    ∧ get_lead_scoring_data testLeads 0.2 0.5 0.5
        { min_composite_score := some 0.8, max_composite_score := some 0.4 } = []
    ∧ get_contract_value_data testLeads 20000 0.5 0.8
        { min_contract_value := some 500000, max_contract_value := some 100000 } = []
    ∧ get_contract_value_data testLeads 20000 0.5 0.8
        { min_upsell_potential := some 0.9, max_upsell_potential := some 0.1 } = []
    ∧ get_contract_value_data testLeads 20000 0.5 0.8
        { min_renewal_probability := some 0.9, max_renewal_probability := some 0.7 }
        = [] := by
  have h := claim_C8_conflicting_bounds_empty testLeads testDays 0.2 0.5 0.5 20000 0.5 0.8
  exact ⟨h.1 _ _ _ rfl rfl (by norm_num),
    h.2.1 _ _ _ rfl rfl (by norm_num),
    h.2.2.1 _ _ _ rfl rfl (by norm_num),
    h.2.2.2.1 _ _ _ rfl rfl (by norm_num),
    h.2.2.2.2.1 _ _ _ rfl rfl (by norm_num),
    h.2.2.2.2.2.1 _ _ _ rfl rfl (by norm_num),
    h.2.2.2.2.2.2.1 _ _ _ rfl rfl (by norm_num),
    h.2.2.2.2.2.2.2.1 _ _ _ rfl rfl (by norm_num),
    h.2.2.2.2.2.2.2.2 _ _ _ rfl rfl (by norm_num)⟩

/-- Claim C9: with no configured language-model backend,
generate_executive_summary returns the fixed sentinel string; with a
configured backend that raises, the exception is converted into an error
string returned as the summary value — the embedding is a total function
into String, so no exception ever propagates as a request failure. -/
theorem claim_C9_summary_error_policy (backend : GenOutcome) :
    generate_executive_summary false backend =
      "AI summary unavailable - Gemini API key not configured"
    ∧ (∀ e, backend = GenOutcome.raised e →
        generate_executive_summary true backend = "Error generating summary: " ++ e) := by
  constructor
  · rfl
  · intro e he
    subst he
    rfl

/-- Witness for claim C9: the sentinel is returned when unconfigured, and a
backend raising with message boom yields the corresponding error string. -/
theorem claim_C9_witness :
    generate_executive_summary false (GenOutcome.ok none) =
      "AI summary unavailable - Gemini API key not configured"
    ∧ GenOutcome.raised "boom" = GenOutcome.raised "boom"
    ∧ generate_executive_summary true (GenOutcome.raised "boom") =
        "Error generating summary: " ++ "boom" :=
  ⟨(claim_C9_summary_error_policy (GenOutcome.ok none)).1, rfl,
    (claim_C9_summary_error_policy (GenOutcome.raised "boom")).2 "boom" rfl⟩

/-- Claim C10: within one GET /api/leads/scoring request the random terms are
drawn once per request, not per record: all returned records share the single
engagement value uEng and the single urgency value uUrg, and (on a dataset
whose fit scores are all present, as the generated dataset is) every
returned conversion_probability equals nr_fit_score * 0.7 plus the single
addend uConv, so it varies between records only through nr_fit_score. -/
theorem claim_C10_randomness_per_request (leads : List Lead) (uConv uEng uUrg : ℚ)
    (p : ScoringParams) (hfit : ∀ l ∈ leads, (l.nr_fit_score).isSome = true) :
    (∀ r1 ∈ get_lead_scoring_data leads uConv uEng uUrg p,
      ∀ r2 ∈ get_lead_scoring_data leads uConv uEng uUrg p,
        r1.engagement_score = r2.engagement_score
        ∧ r1.urgency_score = r2.urgency_score)
    ∧ (∀ r ∈ get_lead_scoring_data leads uConv uEng uUrg p,
        r.conversion_probability = r.nr_fit_score * 0.7 + uConv) := by
  have haux : ∀ r ∈ get_lead_scoring_data leads uConv uEng uUrg p,
      r.engagement_score = uEng ∧ r.urgency_score = uUrg := by
    intro r hr
    obtain ⟨row, hrowf, rfl⟩ := mem_scoring_output hr
    obtain ⟨-, -, heng, hurg⟩ := mem_mkScoringRows (mem_scoring_filtered.mp hrowf).1
    simp [cleanScoringRow, heng, hurg]
  constructor
  · intro r1 h1 r2 h2
    obtain ⟨e1, u1⟩ := haux r1 h1
    obtain ⟨e2, u2⟩ := haux r2 h2
    rw [e1, e2, u1, u2]
    exact ⟨rfl, rfl⟩
  · intro r hr
    obtain ⟨row, hrowf, rfl⟩ := mem_scoring_output hr
    obtain ⟨hlead, hconv, -, -⟩ := mem_mkScoringRows (mem_scoring_filtered.mp hrowf).1
    have hs := hfit row.lead hlead
    cases hf : row.lead.nr_fit_score with
    | none => rw [hf] at hs; simp at hs
    | some f =>
      have hc : row.conversion_probability = some (f * 0.7 + uConv) := by
        rw [hconv, hf]; rfl
      simp [cleanScoringRow, hc, hf]

/-- Witness for claim C10: on the sample data (fit scores 0.9 and 0.1, both
present) with uConv = 0.2, uEng = uUrg = 0.5, both returned records share
engagement 0.5 and urgency 0.5, and the first record has
conversion_probability 0.9 * 0.7 + 0.2. -/
theorem claim_C10_witness :
    (leadA.nr_fit_score).isSome = true
    ∧ (leadB.nr_fit_score).isSome = true
    ∧ cleanScoringA.engagement_score = cleanScoringB.engagement_score
    ∧ cleanScoringA.urgency_score = cleanScoringB.urgency_score
    ∧ cleanScoringA.conversion_probability = cleanScoringA.nr_fit_score * 0.7 + 0.2 := by
  have hfit : ∀ l ∈ testLeads, (l.nr_fit_score).isSome = true := by
    intro l hl
    simp only [testLeads, List.mem_cons, List.mem_singleton] at hl
    rcases hl with rfl | rfl | h
    · simp [leadA]
    · simp [leadB]
    · simp at h
  have h := claim_C10_randomness_per_request testLeads 0.2 0.5 0.5 {} hfit
  have hmA : cleanScoringA ∈ get_lead_scoring_data testLeads 0.2 0.5 0.5 {} := by
    rw [scoring_eval]; simp
  have hmB : cleanScoringB ∈ get_lead_scoring_data testLeads 0.2 0.5 0.5 {} := by
    rw [scoring_eval]; simp
  obtain ⟨he, hu⟩ := h.1 cleanScoringA hmA cleanScoringB hmB
  exact ⟨by simp [leadA], by simp [leadB], he, hu, h.2 cleanScoringA hmA⟩

end LeadPOC
